import Mathlib

/-!
# Budget Performance & Alerting Engine — verification development

Shallow embedding of the `BudgetService` class of the expense-tracker backend
(`budgetService.ts`): budget CRUD, spend aggregation, budget evaluation
(`getBudgetAnalysis`) and alert generation (`getBudgetAlerts`), together with
theorems settling the specification's claims about it.

Modelling conventions:
* JavaScript numbers are modelled as exact rationals, extended with the
  non-finite values `Infinity`, `-Infinity` and `NaN` (`JSNum`), which arise
  in the source exactly at the division `spent / budget.amount`.
* SQLite rows are Lean structures; the database is a `DB` record holding the
  `budgets` and `expenses` tables as lists plus the AUTOINCREMENT counter.
* `datetime('now')` is passed in explicitly as a `now : ℕ` timestamp;
  calendar dates (`date(...)` values, compared by SQL `BETWEEN`) are `ℤ`
  day ordinals.
* Message template strings are represented by an inductive `AlertMessage`
  carrying the template's computed numeric payloads.
-/

namespace BudgetSvc

/-- A JavaScript number as it occurs in the budget computations: a finite
value (idealised as an exact rational) or one of the non-finite values
produced by division by zero. -/
inductive JSNum where
  | num (q : ℚ)
  | posInf
  | negInf
  | nan
deriving DecidableEq, Repr

/-- JS division `a / b` on finite operands: for `b = 0` it produces
`Infinity` / `-Infinity` / `NaN` according to the sign of `a`. -/
def jsDiv (a b : ℚ) : JSNum :=
  if b = 0 then
    if 0 < a then .posInf else if a < 0 then .negInf else .nan
  else .num (a / b)

/-- JS multiplication by the positive literal `100` (as in
`(spent / budget.amount) * 100`): finite values multiply exactly, the
non-finite values are fixed. -/
def jsMul100 : JSNum → JSNum
  | .num q => .num (q * 100)
  | x => x

/-- `(spent / amount) * 100` exactly as computed in the source. -/
def pctOf (spent amount : ℚ) : JSNum :=
  jsMul100 (jsDiv spent amount)

/-- JS comparison `x >= c` against a finite number `c`: `Infinity >= c` is
true, `-Infinity >= c` is false, and any comparison with `NaN` is false. -/
def JSNum.geQ : JSNum → ℚ → Bool
  | .num q, c => decide (c ≤ q)
  | .posInf, _ => true
  | .negInf, _ => false
  | .nan, _ => false

/-- JS `Math.round`: half-up rounding `⌊x + 1/2⌋` on finite values;
`Infinity`, `-Infinity` and `NaN` are fixed points. -/
def jsRound : JSNum → JSNum
  | .num q => .num ((⌊q + 1/2⌋ : ℤ) : ℚ)
  | x => x

/-- The source's two-decimal rounding `Math.round(x * 100) / 100`. -/
def round2 : JSNum → JSNum
  | .num q => .num (((⌊q * 100 + 1/2⌋ : ℤ) : ℚ) / 100)
  | x => x

/-- The `period` column: `'weekly' | 'monthly' | 'yearly'`. -/
inductive Period where
  | weekly
  | monthly
  | yearly
deriving DecidableEq, Repr

/-- A row of the `budgets` table, as read back by the service.  `category`
is `Option String` because the column is nullable (`NULL` means "all
categories"). -/
structure Budget where
  id : ℕ
  userId : ℕ
  name : String
  amount : ℚ
  category : Option String
  period : Period
  startDate : ℤ
  endDate : ℤ
  alertThreshold : ℚ
  isActive : Bool
  createdAt : ℕ
  updatedAt : ℕ
deriving DecidableEq, Repr

/-- A row of the `expenses` table (the fields the budget engine reads). -/
structure Expense where
  userId : ℕ
  category : String
  amount : ℚ
  purchaseDate : ℤ
deriving DecidableEq, Repr

/-- Database state: the two tables and the AUTOINCREMENT counter that
produces `result.lastID` for budget inserts. -/
structure DB where
  budgets : List Budget
  expenses : List Expense
  nextId : ℕ
deriving DecidableEq, Repr

/-- The caller-supplied payload of `createBudget`:
`Omit<Budget, 'id' | 'userId'>` with the timestamps generated server-side. -/
structure BudgetData where
  name : String
  amount : ℚ
  category : Option String
  period : Period
  startDate : ℤ
  endDate : ℤ
  alertThreshold : ℚ
  isActive : Bool
deriving DecidableEq, Repr

/-- JS `budgetData.category || null`: both an absent field and the empty
string are falsy, so both store as `NULL`. -/
def jsOrNull : Option String → Option String
  | some c => if c = "" then none else some c
  | none => none

/-- `getBudgetById`: `SELECT * FROM budgets WHERE id = ?` — note: NOT scoped
by `userId`.  `get` resolves with the first matching row, or `undefined`
(here `none`) when there is none. -/
def getBudgetById (db : DB) (budgetId : ℕ) : Option Budget :=
  db.budgets.find? (fun b => b.id == budgetId)

/-- `createBudget(userId, budgetData)`: inserts one row with generated id and
`datetime('now')` timestamps (no validation of the payload is performed),
then returns `getBudgetById(result.lastID)`. -/
def createBudget (db : DB) (now : ℕ) (userId : ℕ) (d : BudgetData) :
    DB × Option Budget :=
  let row : Budget :=
    { id := db.nextId
      userId := userId
      name := d.name
      amount := d.amount
      category := jsOrNull d.category
      period := d.period
      startDate := d.startDate
      endDate := d.endDate
      alertThreshold := d.alertThreshold
      isActive := d.isActive
      createdAt := now
      updatedAt := now }
  let db' : DB := { db with budgets := db.budgets ++ [row], nextId := db.nextId + 1 }
  (db', getBudgetById db' row.id)

/-- `getUserBudgets(userId)`:
`SELECT * FROM budgets WHERE userId = ? ORDER BY createdAt DESC`. -/
def getUserBudgets (db : DB) (userId : ℕ) : List Budget :=
  (db.budgets.filter (fun b => b.userId == userId)).mergeSort
    (fun a b => b.createdAt ≤ a.createdAt)

/-- The caller-supplied `Partial<Budget>` of `updateBudget`.  Every field of
the row type may be present; the source applies only the eight
`allowedFields` and silently skips the rest (`id`, `userId`, `createdAt`,
`updatedAt`). -/
structure BudgetUpdate where
  name : Option String := none
  amount : Option ℚ := none
  category : Option (Option String) := none
  period : Option Period := none
  startDate : Option ℤ := none
  endDate : Option ℤ := none
  alertThreshold : Option ℚ := none
  isActive : Option Bool := none
  id : Option ℕ := none
  userId : Option ℕ := none
  createdAt : Option ℕ := none
  updatedAt : Option ℕ := none
deriving DecidableEq, Repr

/-- Whether the update contains at least one of the `allowedFields`
(i.e. whether the built `setClause` is nonempty). -/
def BudgetUpdate.hasAllowedField (u : BudgetUpdate) : Bool :=
  u.name.isSome || u.amount.isSome || u.category.isSome || u.period.isSome ||
  u.startDate.isSome || u.endDate.isSome || u.alertThreshold.isSome || u.isActive.isSome

/-- The effect of the generated `SET` clause on one matching row: each
supplied allowed field overwrites the column, `updatedAt = datetime('now')`
is always set, and all other columns (`id`, `userId`, `createdAt`, fields
not supplied) keep their values. -/
def applyUpdate (b : Budget) (u : BudgetUpdate) (now : ℕ) : Budget :=
  { b with
    name := u.name.getD b.name
    amount := u.amount.getD b.amount
    category := u.category.getD b.category
    period := u.period.getD b.period
    startDate := u.startDate.getD b.startDate
    endDate := u.endDate.getD b.endDate
    alertThreshold := u.alertThreshold.getD b.alertThreshold
    isActive := u.isActive.getD b.isActive
    updatedAt := now }

/-- `updateBudget(budgetId, userId, updates)`: throws
`'No valid fields to update'` when no allowed field is supplied; otherwise
runs `UPDATE budgets SET ... WHERE id = ? AND userId = ?` (a no-op when no
row matches the pair) and then returns `getBudgetById(budgetId)` — the
re-fetch is NOT scoped by `userId`. -/
def updateBudget (db : DB) (now : ℕ) (budgetId userId : ℕ) (u : BudgetUpdate) :
    Except String (DB × Option Budget) :=
  if ¬ u.hasAllowedField then .error "No valid fields to update"
  else
    let db' : DB :=
      { db with budgets := db.budgets.map (fun b =>
          if b.id == budgetId && b.userId == userId then applyUpdate b u now else b) }
    .ok (db', getBudgetById db' budgetId)

/-- `deleteBudget(budgetId, userId)`:
`DELETE FROM budgets WHERE id = ? AND userId = ?` — removes the matching
rows (if any) and resolves without error either way. -/
def deleteBudget (db : DB) (budgetId userId : ℕ) : DB :=
  { db with budgets := db.budgets.filter (fun b => !(b.id == budgetId && b.userId == userId)) }

/-- JS truthiness of `budget.category` in `calculateBudgetSpent`'s
`if (budget.category)`: `NULL` and the empty string are falsy, so the
category filter is added only for a non-empty stored category. -/
def expenseMatches (userId : ℕ) (b : Budget) (e : Expense) : Bool :=
  e.userId == userId &&
  decide (b.startDate ≤ e.purchaseDate) && decide (e.purchaseDate ≤ b.endDate) &&
  (match b.category with
   | some c => if c = "" then true else e.category == c
   | none => true)

/-- `calculateBudgetSpent(userId, budget)`:
`SELECT COALESCE(SUM(amount), 0) ... WHERE userId = ? AND date(purchase_date)
BETWEEN date(?) AND date(?)` plus `AND category = ?` when `budget.category`
is truthy.  `COALESCE` (and the final `|| 0`) make the empty sum `0`. -/
def calculateBudgetSpent (db : DB) (userId : ℕ) (b : Budget) : ℚ :=
  ((db.expenses.filter (expenseMatches userId b)).map Expense.amount).sum

/-- The `status` field of a performance record. -/
inductive Status where
  | under
  | warning
  | over
deriving DecidableEq, Repr

/-- The status classification of `getBudgetAnalysis`, applied to the (raw,
unrounded) `percentageUsed` value:
`if (percentageUsed >= 100) 'over' else if (percentageUsed >= alertThreshold)
'warning' else 'under'`. -/
def statusOf (p : JSNum) (alertThreshold : ℚ) : Status :=
  if p.geQ 100 then .over
  else if p.geQ alertThreshold then .warning
  else .under

/-- One element of `BudgetAnalysis.budgetPerformance`. -/
structure BudgetPerformance where
  budgetId : ℕ
  name : String
  budgetAmount : ℚ
  spent : ℚ
  remaining : ℚ
  percentageUsed : JSNum
  status : Status
deriving DecidableEq, Repr

/-- The `BudgetAnalysis` result record. -/
structure BudgetAnalysis where
  totalBudgets : ℕ
  activeBudgets : ℕ
  totalBudgetAmount : ℚ
  totalSpent : ℚ
  overBudgetCount : ℕ
  savings : ℚ
  budgetPerformance : List BudgetPerformance
deriving DecidableEq, Repr

/-- The per-budget body of `getBudgetAnalysis`'s loop: spend aggregation,
`remaining = amount - spent`, raw percentage, status on the raw percentage,
and the stored `percentageUsed = Math.round(pct * 100) / 100`. -/
def evalBudget (db : DB) (userId : ℕ) (b : Budget) : BudgetPerformance :=
  let spent := calculateBudgetSpent db userId b
  let p := pctOf spent b.amount
  { budgetId := b.id
    name := b.name
    budgetAmount := b.amount
    spent := spent
    remaining := b.amount - spent
    percentageUsed := round2 p
    status := statusOf p b.alertThreshold }

/-- `getBudgetAnalysis(userId)`: filters the user's budgets to the active
ones, evaluates each, and accumulates `totalSpent`, `overBudgetCount` and
finally `savings = totalBudgetAmount - totalSpent`.  The imperative
accumulation over the loop is rendered as sums/counts over the list of
performance records it produces. -/
def getBudgetAnalysis (db : DB) (userId : ℕ) : BudgetAnalysis :=
  let budgets := getUserBudgets db userId
  let active := budgets.filter (fun b => b.isActive)
  let perfs := active.map (evalBudget db userId)
  { totalBudgets := budgets.length
    activeBudgets := active.length
    totalBudgetAmount := (active.map Budget.amount).sum
    totalSpent := (perfs.map BudgetPerformance.spent).sum
    overBudgetCount := (perfs.filter (fun r => r.status == .over)).length
    savings := (active.map Budget.amount).sum - (perfs.map BudgetPerformance.spent).sum
    budgetPerformance := perfs }

/-- Severity of an alert. -/
inductive AlertLevel where
  | warning
  | danger
  | exceeded
deriving DecidableEq, Repr

/-- The three message templates of `getBudgetAlerts` with their computed
numeric payloads: the generic "you have used X% of your NAME budget"
(X = `Math.round(percentageUsed)`), the exceeded message carrying the
overage `(spent - budget.amount).toFixed(2)`, and the danger message
carrying `Math.round(percentageUsed)`. -/
inductive AlertMessage where
  | percentUsedMsg (budgetName : String) (roundedPct : JSNum)
  | exceededMsg (budgetName : String) (overage : ℚ)
  | closeToLimitMsg (budgetName : String) (roundedPct : JSNum)
deriving DecidableEq, Repr

/-- The `BudgetAlert` record. -/
structure BudgetAlert where
  budgetId : ℕ
  budgetName : String
  currentSpent : ℚ
  budgetAmount : ℚ
  percentageUsed : JSNum
  alertLevel : AlertLevel
  message : AlertMessage
deriving DecidableEq, Repr

/-- The per-budget body of `getBudgetAlerts`'s loop: pushes an alert exactly
when `percentageUsed >= budget.alertThreshold`, with the default
`'warning'` level/message overridden to `'exceeded'` when
`percentageUsed >= 100` and otherwise to `'danger'` when
`percentageUsed >= 90`. -/
def mkAlert (db : DB) (userId : ℕ) (b : Budget) : Option BudgetAlert :=
  let spent := calculateBudgetSpent db userId b
  let p := pctOf spent b.amount
  if p.geQ b.alertThreshold then
    let lv : AlertLevel :=
      if p.geQ 100 then .exceeded else if p.geQ 90 then .danger else .warning
    let msg : AlertMessage :=
      if p.geQ 100 then .exceededMsg b.name (spent - b.amount)
      else if p.geQ 90 then .closeToLimitMsg b.name (jsRound p)
      else .percentUsedMsg b.name (jsRound p)
    some
      { budgetId := b.id
        budgetName := b.name
        currentSpent := spent
        budgetAmount := b.amount
        percentageUsed := round2 p
        alertLevel := lv
        message := msg }
  else none

/-- `getBudgetAlerts(userId)`: the alerts produced by the loop over the
user's active budgets, in order. -/
def getBudgetAlerts (db : DB) (userId : ℕ) : List BudgetAlert :=
  ((getUserBudgets db userId).filter (fun b => b.isActive)).filterMap (mkAlert db userId)

/-! ## Helper lemmas -/

/-- `getUserBudgets` is a permutation of the user's rows (the `ORDER BY
createdAt DESC` sort only reorders). -/
theorem getUserBudgets_perm (db : DB) (uid : ℕ) :
    (getUserBudgets db uid).Perm (db.budgets.filter (fun b => b.userId == uid)) :=
  List.mergeSort_perm _ _

theorem mem_getUserBudgets {db : DB} {uid : ℕ} {b : Budget} :
    b ∈ getUserBudgets db uid ↔ b ∈ db.budgets ∧ b.userId = uid := by
  rw [(getUserBudgets_perm db uid).mem_iff, List.mem_filter]
  simp

theorem mem_activeBudgets {db : DB} {uid : ℕ} {b : Budget} :
    b ∈ (getUserBudgets db uid).filter (fun x => x.isActive) ↔
      b ∈ db.budgets ∧ b.userId = uid ∧ b.isActive = true := by
  simp [List.mem_filter, mem_getUserBudgets, and_assoc]

/-- Every active budget of the user contributes its evaluation to the
`budgetPerformance` list of the analysis. -/
theorem evalBudget_mem_analysis {db : DB} {uid : ℕ} {b : Budget}
    (h1 : b ∈ db.budgets) (h2 : b.userId = uid) (h3 : b.isActive = true) :
    evalBudget db uid b ∈ (getBudgetAnalysis db uid).budgetPerformance :=
  List.mem_map_of_mem _ (mem_activeBudgets.mpr ⟨h1, h2, h3⟩)

/-! ## Claim C1 — `updateBudget` on a pair `(budgetId, userId)` matching no row -/

/-- A budget owned by user 2; user 1 will attempt to update it. -/
def foreignBudget : Budget :=
  { id := 1, userId := 2, name := "Rent", amount := 300, category := none,
    period := .monthly, startDate := 0, endDate := 30, alertThreshold := 80,
    isActive := true, createdAt := 0, updatedAt := 0 }

def dbForeign : DB :=
  { budgets := [foreignBudget], expenses := [], nextId := 2 }

/-- A partial update supplying only `name`. -/
def renameUpdate : BudgetUpdate := { name := some "hacked" }

/-- C1: the claim fails on the code.  When budget 1 is owned by user 2 and
user 1 calls `updateBudget(1, 1, {name})`, no row matches `(id, userId)` —
yet the call does NOT fail with `NotFoundError`: it resolves successfully
and, because the final re-fetch (`getBudgetById`) is not scoped by
`userId`, it returns user 2's entire budget row (revealing its existence
and contents).  For a wholly nonexistent id (99) it resolves with
`undefined` instead of an error. -/
theorem updateBudget_foreign_row_leaked :
    updateBudget dbForeign 9 1 1 renameUpdate = .ok (dbForeign, some foreignBudget) ∧
    foreignBudget.userId ≠ 1 ∧
    updateBudget dbForeign 9 99 1 renameUpdate = .ok (dbForeign, none) := by
  refine ⟨?_, by decide, ?_⟩ <;> rfl

/-! ## Claim C2 — `createBudget` and invariant-violating payloads -/

/-- The invalid payload from the repository's own test
`should validate budget data before creation`: negative amount, end date
before start date, threshold above 100. -/
def invalidBudgetData : BudgetData :=
  { name := "", amount := -100, category := none, period := .monthly,
    startDate := 20250101, endDate := 20241231, alertThreshold := 150,
    isActive := true }

def dbEmpty : DB := { budgets := [], expenses := [], nextId := 1 }

/-- The row `createBudget` persists for `invalidBudgetData`. -/
def invalidRow : Budget :=
  { id := 1, userId := 1, name := "", amount := -100, category := none,
    period := .monthly, startDate := 20250101, endDate := 20241231,
    alertThreshold := 150, isActive := true, createdAt := 7, updatedAt := 7 }

/-- C2: the claim fails on the code.  `createBudget` performs no validation:
for a payload violating every Budget invariant (`amount = -100 < 0`,
`alertThreshold = 150 > 100`, `endDate < startDate`) it persists the row
and returns it, instead of failing with `ValidationError` and persisting
nothing.  The repository's own test expects this call to reject. -/
theorem createBudget_accepts_invalid_payload :
    createBudget dbEmpty 7 1 invalidBudgetData =
      ({ budgets := [invalidRow], expenses := [], nextId := 2 }, some invalidRow) ∧
    invalidBudgetData.amount < 0 ∧
    100 < invalidBudgetData.alertThreshold ∧
    invalidBudgetData.endDate < invalidBudgetData.startDate := by
  refine ⟨rfl, by norm_num [invalidBudgetData], by norm_num [invalidBudgetData], by decide⟩

/-! ## Claim C3 — stored budget with `amount == 0` -/

/-- A stored (invalid) budget with `amount = 0`, reachable because
`createBudget` does not validate. -/
def zeroAmountBudget : Budget :=
  { id := 1, userId := 1, name := "Dining", amount := 0, category := none,
    period := .monthly, startDate := 0, endDate := 30, alertThreshold := 80,
    isActive := true, createdAt := 0, updatedAt := 0 }

def dbZeroAmount : DB :=
  { budgets := [zeroAmountBudget],
    expenses := [{ userId := 1, category := "Dining", amount := 50, purchaseDate := 5 }],
    nextId := 2 }

/-- C3: the claim fails on the code.  Neither `getBudgetAnalysis` nor
`getBudgetAlerts` contains any guard (or any throw at all): on a stored
budget with `amount = 0` and positive spend they compute
`percentageUsed = (50 / 0) * 100 = Infinity` and return it inside the
performance record (status `'over'`) and the alert (level `'exceeded'`) —
no `DomainError` is signalled. -/
theorem zero_amount_budget_returns_infinity :
    (getBudgetAnalysis dbZeroAmount 1).budgetPerformance.map
        (fun r => (r.percentageUsed, r.status)) = [(JSNum.posInf, Status.over)] ∧
    (getBudgetAlerts dbZeroAmount 1).map
        (fun a => (a.percentageUsed, a.alertLevel)) = [(JSNum.posInf, AlertLevel.exceeded)] := by
  constructor
  · simp [getBudgetAnalysis, getUserBudgets, dbZeroAmount, zeroAmountBudget, evalBudget,
      calculateBudgetSpent, expenseMatches, pctOf, jsDiv, jsMul100, round2, statusOf,
      JSNum.geQ, List.filter]
  · simp [getBudgetAlerts, getUserBudgets, dbZeroAmount, zeroAmountBudget, mkAlert,
      calculateBudgetSpent, expenseMatches, pctOf, jsDiv, jsMul100, round2,
      JSNum.geQ, List.filter]

/-! ## Claim C4 — status classification in `getBudgetAnalysis` -/

/-- An active budget at the rounding boundary: threshold 80, amount 2000. -/
def boundaryBudget : Budget :=
  { id := 1, userId := 1, name := "Groceries", amount := 2000, category := none,
    period := .monthly, startDate := 0, endDate := 30, alertThreshold := 80,
    isActive := true, createdAt := 0, updatedAt := 0 }

/-- Spend 1599.92 against `boundaryBudget`: the raw percentage is 79.996
(below the threshold 80), but two-decimal rounding lifts the stored
`percentageUsed` field to exactly 80.00. -/
def dbBoundary : DB :=
  { budgets := [boundaryBudget],
    expenses := [{ userId := 1, category := "Groceries", amount := 159992/100, purchaseDate := 5 }],
    nextId := 2 }

/-- C4 counterexample: the claim ties status to the record's (rounded)
`percentageUsed` field.  Here that field equals 80.00, the budget's
`alertThreshold` is 80 (so `alertThreshold <= percentageUsed < 100` and the
claim requires status `'warning'`), yet the code classifies on the raw
percentage 79.996 and returns status `'under'`. -/
theorem status_rounded_field_boundary_cex :
    boundaryBudget.isActive = true ∧
    boundaryBudget.alertThreshold = 80 ∧
    (getBudgetAnalysis dbBoundary 1).budgetPerformance.map
        (fun r => (r.percentageUsed, r.status)) = [(JSNum.num 80, Status.under)] := by
  refine ⟨rfl, by norm_num [boundaryBudget], ?_⟩
  simp [getBudgetAnalysis, getUserBudgets, dbBoundary, boundaryBudget, evalBudget,
    calculateBudgetSpent, expenseMatches, pctOf, jsDiv, jsMul100, round2, statusOf,
    JSNum.geQ, List.filter]
  norm_num

/-- C4 (amended): for every active budget with `alertThreshold` in [1,100]
and positive amount, the status of its performance record is classified on
the RAW percentage `spent / amount * 100` (before the two-decimal rounding
of the stored `percentageUsed` field), with `>=` as the tie-break:
`under` iff raw < threshold, `warning` iff threshold <= raw < 100, and
`over` iff raw >= 100. -/
theorem status_classification_on_raw_pct (db : DB) (uid : ℕ) (b : Budget)
    (hmem : b ∈ db.budgets) (huser : b.userId = uid) (hact : b.isActive = true)
    (hamt : 0 < b.amount) (hth1 : 1 ≤ b.alertThreshold) (hth2 : b.alertThreshold ≤ 100) :
    evalBudget db uid b ∈ (getBudgetAnalysis db uid).budgetPerformance ∧
    ((evalBudget db uid b).status = Status.under ↔
      calculateBudgetSpent db uid b / b.amount * 100 < b.alertThreshold) ∧
    ((evalBudget db uid b).status = Status.warning ↔
      (b.alertThreshold ≤ calculateBudgetSpent db uid b / b.amount * 100 ∧
       calculateBudgetSpent db uid b / b.amount * 100 < 100)) ∧
    ((evalBudget db uid b).status = Status.over ↔
      100 ≤ calculateBudgetSpent db uid b / b.amount * 100) := by
  have hne : b.amount ≠ 0 := ne_of_gt hamt
  refine ⟨evalBudget_mem_analysis hmem huser hact, ?_, ?_, ?_⟩ <;>
  · simp only [evalBudget, statusOf, pctOf, jsDiv, if_neg hne, jsMul100, JSNum.geQ,
      decide_eq_true_eq]
    split_ifs with h1 h2 <;> simp_all <;> linarith

/-- C4 witness: the amended classification at the concrete boundary input —
raw percentage 79.996 < 80, so the record is `under`. -/
theorem status_classification_on_raw_pct_witness :
    evalBudget dbBoundary 1 boundaryBudget ∈ (getBudgetAnalysis dbBoundary 1).budgetPerformance ∧
    ((evalBudget dbBoundary 1 boundaryBudget).status = Status.under ↔
      calculateBudgetSpent dbBoundary 1 boundaryBudget / boundaryBudget.amount * 100 <
        boundaryBudget.alertThreshold) ∧
    ((evalBudget dbBoundary 1 boundaryBudget).status = Status.warning ↔
      (boundaryBudget.alertThreshold ≤
        calculateBudgetSpent dbBoundary 1 boundaryBudget / boundaryBudget.amount * 100 ∧
       calculateBudgetSpent dbBoundary 1 boundaryBudget / boundaryBudget.amount * 100 < 100)) ∧
    ((evalBudget dbBoundary 1 boundaryBudget).status = Status.over ↔
      100 ≤ calculateBudgetSpent dbBoundary 1 boundaryBudget / boundaryBudget.amount * 100) :=
  status_classification_on_raw_pct dbBoundary 1 boundaryBudget
    (by simp [dbBoundary]) rfl rfl
    (by norm_num [boundaryBudget]) (by norm_num [boundaryBudget]) (by norm_num [boundaryBudget])

/-! ## Claim C5 — alert generation in `getBudgetAlerts` -/

/-- C5: for every active budget with positive amount, `getBudgetAlerts`
emits an alert for it iff the raw percentage `spent / amount * 100` reaches
the budget's own `alertThreshold` (`>=` tie-break); the emitted level is
`exceeded` iff the percentage reaches 100 (with the message carrying the
overage `spent - budgetAmount`), `danger` iff it lies in [90, 100)
regardless of the budget's threshold, and `warning` iff it lies in
[threshold, 90). -/
theorem alert_firing_and_levels (db : DB) (uid : ℕ) (b : Budget)
    (hmem : b ∈ db.budgets) (huser : b.userId = uid) (hact : b.isActive = true)
    (hamt : 0 < b.amount) :
    ((mkAlert db uid b).isSome = true ↔
      b.alertThreshold ≤ calculateBudgetSpent db uid b / b.amount * 100) ∧
    (∀ a, mkAlert db uid b = some a →
      a ∈ getBudgetAlerts db uid ∧
      (a.alertLevel = AlertLevel.exceeded ↔
        100 ≤ calculateBudgetSpent db uid b / b.amount * 100) ∧
      (a.alertLevel = AlertLevel.exceeded →
        a.message = AlertMessage.exceededMsg b.name (calculateBudgetSpent db uid b - b.amount)) ∧
      (a.alertLevel = AlertLevel.danger ↔
        (90 ≤ calculateBudgetSpent db uid b / b.amount * 100 ∧
         calculateBudgetSpent db uid b / b.amount * 100 < 100)) ∧
      (a.alertLevel = AlertLevel.warning ↔
        (b.alertThreshold ≤ calculateBudgetSpent db uid b / b.amount * 100 ∧
         calculateBudgetSpent db uid b / b.amount * 100 < 90))) := by
  have hne : b.amount ≠ 0 := ne_of_gt hamt
  constructor
  · simp only [mkAlert, pctOf, jsDiv, if_neg hne, jsMul100, JSNum.geQ, decide_eq_true_eq]
    split_ifs with h <;> simp [h]
  · intro a ha
    have hmemA : a ∈ getBudgetAlerts db uid :=
      List.mem_filterMap.mpr ⟨b, mem_activeBudgets.mpr ⟨hmem, huser, hact⟩, ha⟩
    refine ⟨hmemA, ?_⟩
    simp only [mkAlert, pctOf, jsDiv, if_neg hne, jsMul100, JSNum.geQ,
      decide_eq_true_eq] at ha
    split_ifs at ha with hth h100 h90
    · -- percentage >= 100: level `exceeded`
      cases ha
      refine ⟨⟨fun _ => h100, fun _ => rfl⟩, fun _ => rfl, ?_, ?_⟩
      · exact ⟨fun hx => (nomatch hx), fun hx => absurd hx (by rintro ⟨_, hlt⟩; linarith)⟩
      · exact ⟨fun hx => (nomatch hx), fun hx => absurd hx (by rintro ⟨_, hlt⟩; linarith)⟩
    · -- 90 <= percentage < 100: level `danger`
      cases ha
      push_neg at h100
      refine ⟨⟨fun hx => (nomatch hx), fun hx => absurd hx (by intro hx; linarith)⟩,
        fun hx => (nomatch hx), ⟨fun _ => ⟨h90, h100⟩, fun _ => rfl⟩, ?_⟩
      exact ⟨fun hx => (nomatch hx), fun hx => absurd hx (by rintro ⟨_, hlt⟩; linarith)⟩
    · -- threshold <= percentage < 90: level `warning`
      cases ha
      push_neg at h100 h90
      refine ⟨⟨fun hx => (nomatch hx), fun hx => absurd hx (by intro hx; linarith)⟩,
        fun hx => (nomatch hx), ⟨fun hx => (nomatch hx), fun hx => absurd hx (by rintro ⟨h9, _⟩; linarith)⟩,
        ⟨fun _ => ⟨hth, h90⟩, fun _ => rfl⟩⟩

/-- The spec's alert example: budget `amount = 200, alertThreshold = 80`. -/
def funBudget : Budget :=
  { id := 1, userId := 1, name := "Fun", amount := 200, category := none,
    period := .monthly, startDate := 0, endDate := 30, alertThreshold := 80,
    isActive := true, createdAt := 0, updatedAt := 0 }

/-- 170 spent against `funBudget`: 85% — inside `[threshold, 90)`. -/
def dbFun : DB :=
  { budgets := [funBudget],
    expenses := [{ userId := 1, category := "Fun", amount := 170, purchaseDate := 3 }],
    nextId := 2 }

/-- The alert the code emits for `dbFun`. -/
def funAlert : BudgetAlert :=
  { budgetId := 1, budgetName := "Fun", currentSpent := 170, budgetAmount := 200,
    percentageUsed := .num 85, alertLevel := .warning,
    message := .percentUsedMsg "Fun" (.num 85) }

/-- C5 witness: at 85% of a budget with threshold 80, an alert is emitted
and its level is `warning`. -/
theorem alert_firing_and_levels_witness :
    ((mkAlert dbFun 1 funBudget).isSome = true ↔
      funBudget.alertThreshold ≤ calculateBudgetSpent dbFun 1 funBudget / funBudget.amount * 100) ∧
    funAlert ∈ getBudgetAlerts dbFun 1 ∧
    (funAlert.alertLevel = AlertLevel.warning ↔
      (funBudget.alertThreshold ≤ calculateBudgetSpent dbFun 1 funBudget / funBudget.amount * 100 ∧
       calculateBudgetSpent dbFun 1 funBudget / funBudget.amount * 100 < 90)) := by
  have h := alert_firing_and_levels dbFun 1 funBudget (by simp [dbFun]) rfl rfl
    (by norm_num [funBudget])
  have hma : mkAlert dbFun 1 funBudget = some funAlert := by
    simp [mkAlert, dbFun, funBudget, funAlert, calculateBudgetSpent, expenseMatches,
      pctOf, jsDiv, jsMul100, round2, jsRound, JSNum.geQ, List.filter]
    norm_num
  have h2 := h.2 funAlert hma
  exact ⟨h.1, h2.1, h2.2.2.2.2⟩

/-! ## Claim C6 — `remaining` and `percentageUsed` of a performance record -/

/-- C6: for every active budget with nonzero amount, the performance record
satisfies `remaining = budgetAmount - spent` exactly (negative values
preserved) and `percentageUsed = round2(spent / budgetAmount * 100)`, the
raw ratio times 100 under the source's two-decimal half-up rounding
`Math.round(x * 100) / 100`. -/
theorem performance_remaining_and_rounded_pct (db : DB) (uid : ℕ) (b : Budget)
    (hmem : b ∈ db.budgets) (huser : b.userId = uid) (hact : b.isActive = true)
    (hamt : b.amount ≠ 0) :
    evalBudget db uid b ∈ (getBudgetAnalysis db uid).budgetPerformance ∧
    (evalBudget db uid b).remaining = b.amount - calculateBudgetSpent db uid b ∧
    (evalBudget db uid b).percentageUsed =
      JSNum.num (((⌊calculateBudgetSpent db uid b / b.amount * 100 * 100 + 1/2⌋ : ℤ) : ℚ) / 100) := by
  refine ⟨evalBudget_mem_analysis hmem huser hact, rfl, ?_⟩
  simp [evalBudget, pctOf, jsDiv, if_neg hamt, jsMul100, round2]

/-- The spec's rounding example: budget of 500 with 425 spent. -/
def halfK : Budget :=
  { id := 1, userId := 1, name := "Groceries", amount := 500, category := none,
    period := .monthly, startDate := 0, endDate := 30, alertThreshold := 80,
    isActive := true, createdAt := 0, updatedAt := 0 }

def dbHalfK : DB :=
  { budgets := [halfK],
    expenses := [{ userId := 1, category := "Groceries", amount := 425, purchaseDate := 2 }],
    nextId := 2 }

/-- C6 witness: `amount = 500, spent = 425` gives the claimed fields
(in particular `percentageUsed = 85.00`). -/
theorem performance_remaining_and_rounded_pct_witness :
    (evalBudget dbHalfK 1 halfK ∈ (getBudgetAnalysis dbHalfK 1).budgetPerformance ∧
     (evalBudget dbHalfK 1 halfK).remaining = halfK.amount - calculateBudgetSpent dbHalfK 1 halfK ∧
     (evalBudget dbHalfK 1 halfK).percentageUsed =
       JSNum.num (((⌊calculateBudgetSpent dbHalfK 1 halfK / halfK.amount * 100 * 100 + 1/2⌋ : ℤ) : ℚ) / 100)) ∧
    (evalBudget dbHalfK 1 halfK).percentageUsed = JSNum.num 85 := by
  refine ⟨performance_remaining_and_rounded_pct dbHalfK 1 halfK (by simp [dbHalfK]) rfl rfl
    (by norm_num [halfK]), ?_⟩
  simp [evalBudget, dbHalfK, halfK, calculateBudgetSpent, expenseMatches, pctOf,
    jsDiv, jsMul100, round2, List.filter]
  norm_num

/-! ## Claim C7 — portfolio aggregation of `getBudgetAnalysis` -/

/-- The active budgets the analysis iterates are, up to the `ORDER BY`
reordering, exactly the user's rows with `isActive`. -/
theorem activeBudgets_perm (db : DB) (uid : ℕ) :
    ((getUserBudgets db uid).filter (fun b => b.isActive)).Perm
      (db.budgets.filter (fun b => b.userId == uid && b.isActive)) := by
  have h := (getUserBudgets_perm db uid).filter (fun b => b.isActive)
  rw [List.filter_filter] at h
  simpa [Bool.and_comm] using h

/-- C7: `getBudgetAnalysis` produces exactly one performance record per
active budget of the user (inactive ones excluded), `totalBudgetAmount` is
the sum of the active budgets' amounts, `totalSpent` the sum of the
records' `spent`, `overBudgetCount` the number of records with status
`over`, and `savings = totalBudgetAmount - totalSpent` (not clamped). -/
theorem portfolio_aggregation (db : DB) (uid : ℕ) :
    (getBudgetAnalysis db uid).budgetPerformance =
      ((getUserBudgets db uid).filter (fun b => b.isActive)).map (evalBudget db uid) ∧
    (getBudgetAnalysis db uid).budgetPerformance.length =
      (db.budgets.filter (fun b => b.userId == uid && b.isActive)).length ∧
    (getBudgetAnalysis db uid).totalBudgetAmount =
      ((db.budgets.filter (fun b => b.userId == uid && b.isActive)).map Budget.amount).sum ∧
    (getBudgetAnalysis db uid).totalSpent =
      ((getBudgetAnalysis db uid).budgetPerformance.map BudgetPerformance.spent).sum ∧
    (getBudgetAnalysis db uid).overBudgetCount =
      ((getBudgetAnalysis db uid).budgetPerformance.filter
        (fun r => r.status == Status.over)).length ∧
    (getBudgetAnalysis db uid).savings =
      (getBudgetAnalysis db uid).totalBudgetAmount - (getBudgetAnalysis db uid).totalSpent := by
  refine ⟨rfl, ?_, ?_, rfl, rfl, rfl⟩
  · show (((getUserBudgets db uid).filter (fun b => b.isActive)).map (evalBudget db uid)).length
        = _
    rw [List.length_map]
    exact (activeBudgets_perm db uid).length_eq
  · exact ((activeBudgets_perm db uid).map Budget.amount).sum_eq

/-! ## Claim C8 — frame property of `updateBudget` -/

/-- C8: a successful `updateBudget` rewrites exactly the rows matching
`(budgetId, userId)` with the supplied allowed fields plus `updatedAt`;
`id`, `userId` and `createdAt` are never changed (even when the partial
update supplies `id`/`userId`/`createdAt` values — they are outside
`allowedFields` and ignored), every allowed field not supplied keeps its
value, and rows not matching the pair are untouched. -/
theorem update_frame (db : DB) (now : ℕ) (budgetId userId : ℕ) (u : BudgetUpdate)
    (db' : DB) (r : Option Budget)
    (h : updateBudget db now budgetId userId u = .ok (db', r)) :
    db'.budgets = db.budgets.map (fun b =>
      if b.id == budgetId && b.userId == userId then applyUpdate b u now else b) ∧
    (∀ b : Budget,
      (applyUpdate b u now).id = b.id ∧
      (applyUpdate b u now).userId = b.userId ∧
      (applyUpdate b u now).createdAt = b.createdAt ∧
      (applyUpdate b u now).updatedAt = now ∧
      (u.name = none → (applyUpdate b u now).name = b.name) ∧
      (u.amount = none → (applyUpdate b u now).amount = b.amount) ∧
      (u.category = none → (applyUpdate b u now).category = b.category) ∧
      (u.period = none → (applyUpdate b u now).period = b.period) ∧
      (u.startDate = none → (applyUpdate b u now).startDate = b.startDate) ∧
      (u.endDate = none → (applyUpdate b u now).endDate = b.endDate) ∧
      (u.alertThreshold = none → (applyUpdate b u now).alertThreshold = b.alertThreshold) ∧
      (u.isActive = none → (applyUpdate b u now).isActive = b.isActive)) ∧
    (∀ b ∈ db.budgets, ¬(b.id = budgetId ∧ b.userId = userId) → b ∈ db'.budgets) := by
  unfold updateBudget at h
  split_ifs at h
  simp only [Except.ok.injEq, Prod.mk.injEq] at h
  obtain ⟨hdb, -⟩ := h
  subst hdb
  refine ⟨rfl, ?_, ?_⟩
  · intro b
    refine ⟨rfl, rfl, rfl, rfl, ?_, ?_, ?_, ?_, ?_, ?_, ?_, ?_⟩ <;>
      · intro hn
        simp [applyUpdate, hn]
  · intro b hb hnot
    have hcond : (b.id == budgetId && b.userId == userId) = false := by
      simpa using hnot
    have heq : (fun x : Budget =>
        if x.id == budgetId && x.userId == userId then applyUpdate x u now else x) b = b := by
      simp [hcond]
    have hmem := List.mem_map_of_mem (fun x : Budget =>
      if x.id == budgetId && x.userId == userId then applyUpdate x u now else x) hb
    rwa [heq] at hmem

/-- Budget used by the C8 witness, owned by user 1. -/
def frameBudget : Budget :=
  { id := 1, userId := 1, name := "A", amount := 100, category := none,
    period := .weekly, startDate := 0, endDate := 7, alertThreshold := 50,
    isActive := true, createdAt := 3, updatedAt := 3 }

def dbFrame : DB := { budgets := [frameBudget], expenses := [], nextId := 2 }

/-- An update supplying `amount` plus (ignored) `id`, `userId`, `createdAt`. -/
def sneakyUpdate : BudgetUpdate :=
  { amount := some 999, id := some 9, userId := some 42, createdAt := some 77 }

/-- The row after the C8 witness update: only `amount` and `updatedAt`
changed. -/
def frameBudgetAfter : Budget :=
  { id := 1, userId := 1, name := "A", amount := 999, category := none,
    period := .weekly, startDate := 0, endDate := 7, alertThreshold := 50,
    isActive := true, createdAt := 3, updatedAt := 8 }

def dbFrameAfter : DB := { budgets := [frameBudgetAfter], expenses := [], nextId := 2 }

/-- C8 witness: the frame property at a concrete update that supplies
`amount = 999` together with `id = 9`, `userId = 42`, `createdAt = 77`; the
latter three are ignored. -/
theorem update_frame_witness :
    dbFrameAfter.budgets = dbFrame.budgets.map (fun b =>
      if b.id == 1 && b.userId == 1 then applyUpdate b sneakyUpdate 8 else b) ∧
    (applyUpdate frameBudget sneakyUpdate 8).id = frameBudget.id ∧
    (applyUpdate frameBudget sneakyUpdate 8).userId = frameBudget.userId ∧
    (applyUpdate frameBudget sneakyUpdate 8).createdAt = frameBudget.createdAt ∧
    (applyUpdate frameBudget sneakyUpdate 8).updatedAt = 8 ∧
    (applyUpdate frameBudget sneakyUpdate 8).name = frameBudget.name := by
  have h := update_frame dbFrame 8 1 1 sneakyUpdate dbFrameAfter
    (some frameBudgetAfter) rfl
  have hb := h.2.1 frameBudget
  exact ⟨h.1, hb.1, hb.2.1, hb.2.2.1, hb.2.2.2.1, hb.2.2.2.2.1 rfl⟩

/-! ## Claim C9 — `deleteBudget` -/

/-- Splitting a list's length over a Bool predicate and its negation. -/
theorem length_filter_split {α : Type} (p : α → Bool) (l : List α) :
    l.length = (l.filter p).length + (l.filter (fun a => !p a)).length := by
  induction l with
  | nil => rfl
  | cons x xs ih => by_cases hx : p x <;> simp [List.filter_cons, hx, ih] <;> omega

/-- C9: `deleteBudget` always succeeds (it is a total function — the scoped
`DELETE` statement reports no error when nothing matches), removes exactly
the rows matching `(budgetId, userId)`, leaves every other row unchanged,
is idempotent, and — when ids are unique, as the primary key guarantees —
removes at most one row. -/
theorem delete_scoped_idempotent (db : DB) (budgetId userId : ℕ) :
    (deleteBudget db budgetId userId).budgets =
      db.budgets.filter (fun b => !(b.id == budgetId && b.userId == userId)) ∧
    deleteBudget (deleteBudget db budgetId userId) budgetId userId =
      deleteBudget db budgetId userId ∧
    (∀ b ∈ db.budgets, ¬(b.id = budgetId ∧ b.userId = userId) →
      b ∈ (deleteBudget db budgetId userId).budgets) ∧
    (∀ b ∈ (deleteBudget db budgetId userId).budgets,
      b ∈ db.budgets ∧ ¬(b.id = budgetId ∧ b.userId = userId)) ∧
    ((db.budgets.map Budget.id).Nodup →
      db.budgets.length ≤ (deleteBudget db budgetId userId).budgets.length + 1) := by
  refine ⟨rfl, ?_, ?_, ?_, ?_⟩
  · simp [deleteBudget, List.filter_filter]
  · intro b hb hnot
    exact List.mem_filter.mpr ⟨hb, by simpa using not_and_or.mp hnot⟩
  · intro b hb
    have hbf := List.mem_filter.mp hb
    refine ⟨hbf.1, ?_⟩
    intro hand
    have h2 := hbf.2
    simp [hand.1, hand.2] at h2
  · intro hnodup
    have hsplit := length_filter_split
      (fun b : Budget => b.id == budgetId && b.userId == userId) db.budgets
    have hle : (db.budgets.filter
        (fun b : Budget => b.id == budgetId && b.userId == userId)).length ≤ 1 := by
      have h1 : (db.budgets.filter
          (fun b : Budget => b.id == budgetId && b.userId == userId)).length ≤
          (db.budgets.filter (fun b : Budget => b.id == budgetId)).length := by
        rw [← List.countP_eq_length_filter, ← List.countP_eq_length_filter]
        exact List.countP_mono_left (fun b _ hb => by
          simp only [Bool.and_eq_true] at hb
          exact hb.1)
      have h2 : (db.budgets.filter (fun b : Budget => b.id == budgetId)).length =
          (db.budgets.map Budget.id).count budgetId := by
        rw [← List.countP_eq_length_filter, List.count_eq_countP, List.countP_map]
        rfl
      have h3 := List.nodup_iff_count_le_one.mp hnodup budgetId
      omega
    have hdel : (deleteBudget db budgetId userId).budgets.length =
        (db.budgets.filter
          (fun b : Budget => !(b.id == budgetId && b.userId == userId))).length := rfl
    omega

/-- Two budgets of user 1; the C9 witness deletes id 1. -/
def delTarget : Budget :=
  { id := 1, userId := 1, name := "Del", amount := 100, category := none,
    period := .weekly, startDate := 0, endDate := 7, alertThreshold := 50,
    isActive := true, createdAt := 0, updatedAt := 0 }

def keepBudget : Budget :=
  { id := 2, userId := 1, name := "Keep", amount := 150, category := none,
    period := .weekly, startDate := 0, endDate := 7, alertThreshold := 50,
    isActive := true, createdAt := 1, updatedAt := 1 }

def dbDel : DB := { budgets := [delTarget, keepBudget], expenses := [], nextId := 3 }

/-- C9 witness: deleting budget 1 keeps budget 2, deleting twice equals
deleting once, the untouched row survives, and at most one row was
removed; deleting a nonexistent id (99) is a silent no-op. -/
theorem delete_scoped_idempotent_witness :
    (deleteBudget dbDel 1 1).budgets = [keepBudget] ∧
    deleteBudget (deleteBudget dbDel 1 1) 1 1 = deleteBudget dbDel 1 1 ∧
    keepBudget ∈ (deleteBudget dbDel 1 1).budgets ∧
    dbDel.budgets.length ≤ (deleteBudget dbDel 1 1).budgets.length + 1 ∧
    deleteBudget dbDel 99 1 = dbDel := by
  have h := delete_scoped_idempotent dbDel 1 1
  refine ⟨h.1.trans (by rfl), h.2.1, ?_, h.2.2.2.2 (by decide), rfl⟩
  exact h.2.2.1 keepBudget (by simp [dbDel]) (by decide)

/-! ## Claim C10 — empty-string category normalises to "all categories" -/

/-- C10: creating a budget with `category = ""` is indistinguishable from
creating it with no category at all (`budgetData.category || null` stores
`NULL` for both), and the stored row's spend calculation applies no
category filter: it sums the user's expenses of every category within the
date range. -/
theorem empty_category_all_categories (db : DB) (now uid : ℕ) (d : BudgetData)
    (h : d.category = some "") :
    createBudget db now uid d = createBudget db now uid { d with category := none } ∧
    (∀ r, (createBudget db now uid d).1.budgets.getLast? = some r →
      r.category = none ∧
      ∀ db2 : DB, calculateBudgetSpent db2 uid r =
        ((db2.expenses.filter (fun e => e.userId == uid &&
            decide (r.startDate ≤ e.purchaseDate) &&
            decide (e.purchaseDate ≤ r.endDate))).map Expense.amount).sum) := by
  constructor
  · simp [createBudget, jsOrNull, h]
  · intro r hr
    have hr' : r.category = none ∧ r.startDate = d.startDate ∧ r.endDate = d.endDate := by
      simp only [createBudget, List.getLast?_concat, Option.some.injEq] at hr
      subst hr
      simp [jsOrNull, h]
    refine ⟨hr'.1, fun db2 => ?_⟩
    have hfil : db2.expenses.filter (expenseMatches uid r) =
        db2.expenses.filter (fun e => e.userId == uid &&
          decide (r.startDate ≤ e.purchaseDate) &&
          decide (e.purchaseDate ≤ r.endDate)) :=
      List.filter_congr (fun e _ => by simp [expenseMatches, hr'.1])
    unfold calculateBudgetSpent
    rw [hfil]

/-- C10 witness data: payload with `category = ""`. -/
def emptyCatData : BudgetData :=
  { name := "All", amount := 300, category := some "", period := .monthly,
    startDate := 0, endDate := 30, alertThreshold := 80, isActive := true }

def dbBefore : DB := { budgets := [], expenses := [], nextId := 1 }

/-- The row stored for `emptyCatData` (category normalised to `NULL`). -/
def allCatRow : Budget :=
  { id := 1, userId := 1, name := "All", amount := 300, category := none,
    period := .monthly, startDate := 0, endDate := 30, alertThreshold := 80,
    isActive := true, createdAt := 4, updatedAt := 4 }

/-- Expenses of two different categories inside the date range. -/
def dbTwoCats : DB :=
  { budgets := [allCatRow],
    expenses := [{ userId := 1, category := "Groceries", amount := 20, purchaseDate := 2 },
                 { userId := 1, category := "Fuel", amount := 15, purchaseDate := 9 }],
    nextId := 2 }

/-- C10 witness: the empty-string-category creation equals the no-category
creation, stores `category = NULL`, and its spend sums expenses of every
category (20 + 15 = 35). -/
theorem empty_category_all_categories_witness :
    createBudget dbBefore 4 1 emptyCatData =
      createBudget dbBefore 4 1 { emptyCatData with category := none } ∧
    allCatRow.category = none ∧
    calculateBudgetSpent dbTwoCats 1 allCatRow = 35 := by
  have h := empty_category_all_categories dbBefore 4 1 emptyCatData rfl
  have h2 := h.2 allCatRow rfl
  refine ⟨h.1, h2.1, (h2.2 dbTwoCats).trans ?_⟩
  norm_num [dbTwoCats, allCatRow, List.filter]

end BudgetSvc
